import Mathlib

/-!
Verification development for the block-physics core of the `three-AR`
repository (`src/components/World.tsx`).

The development embeds the core in two layers:

* an exact-arithmetic model over `ℚ` (`Vec3`, `BlockData`, `WorldState`,
  `physicsStep`, `spawnBlock`, `pushBlocks`, `clearScene`,
  `updateHandPosition`), which is faithful to the JavaScript source as long
  as every number involved is finite;
* a JavaScript-value model (`JVal`, carrying `nan` and the two signed
  infinities with IEEE-754 propagation rules, exact on finite values) used
  to settle the claims that are about NaN/Infinity behaviour.  Square roots
  are taken exactly (`Rat.sqrt`), which agrees with `Math.sqrt` on the
  perfect squares at which this development evaluates it.

Each definition is translated directly from the source: the physics step is
split into the four phases of the per-block loop body (gravity, hand
repulsion, integration, floor collision), composed in source order.
-/

/-- `charsStartWith s pat`: `pat` is a leading segment of `s`. -/
def charsStartWith : List Char → List Char → Bool
  | _, [] => true
  | [], _ :: _ => false
  | a :: as, b :: bs => a == b && charsStartWith as bs

/-- `charsContain s pat`: `pat` occurs contiguously inside `s`. -/
def charsContain : List Char → List Char → Bool
  | [], pat => charsStartWith [] pat
  | s@(_ :: rest), pat => charsStartWith s pat || charsContain rest pat

/-- JavaScript `String.prototype.includes`. -/
def jsIncludes (s pat : String) : Bool :=
  charsContain s.toList pat.toList

/-- JavaScript `String.prototype.toUpperCase` on the ASCII keys used
here. -/
def jsToUpper (s : String) : String :=
  ⟨s.data.map Char.toUpper⟩

/-- 3-component rational vector (`THREE.Vector3` / the position and
velocity triples of `BlockData`). -/
structure Vec3 where
  x : ℚ
  y : ℚ
  z : ℚ
deriving DecidableEq, Repr

/-- Componentwise difference of two vectors. -/
def vsub (a b : Vec3) : Vec3 :=
  ⟨a.x - b.x, a.y - b.y, a.z - b.z⟩

/-- Squared Euclidean norm. -/
def normSq (v : Vec3) : ℚ :=
  v.x * v.x + v.y * v.y + v.z * v.z

/-- `const GRAVITY = -9.8`. -/
def GRAVITY : ℚ := -(98 / 10)

/-- `const BLOCK_SIZE = 1`. -/
def BLOCK_SIZE : ℚ := 1

/-- One simulated cube (`BlockData` in `types.ts`). -/
structure BlockData where
  id : String
  position : Vec3
  color : String
  velocity : Vec3
  isSleeping : Bool
deriving DecidableEq, Repr

/-- The tracked hand cursor (`handPosRef` / `handActiveRef`). -/
structure HandState where
  pos : Vec3
  active : Bool
deriving DecidableEq, Repr

/-- The mutable scene state owned by `PhysicsScene`. -/
structure WorldState where
  blocks : List BlockData
  hand : HandState
deriving DecidableEq, Repr

/-- `Object.values(GUNDAM_COLORS)` from `constants.ts`, in declaration
order. -/
def GUNDAM_COLORS : List String :=
  ["#0057b8", "#e9002d", "#fcd116", "#ffffff", "#4a4a4a", "#1a1a1a"]

/-- The colour-key resolution of `spawnBlock`.  The random palette index
drawn by `Math.floor(Math.random() * keys.length)` is passed in as
`randIdx`. -/
def mapColor (colorKey : String) (randIdx : Fin 6) : String :=
  if colorKey == "random" then
    GUNDAM_COLORS.getD randIdx.val "#ffffff"
  else
    let keyUpper := jsToUpper colorKey
    if jsIncludes keyUpper "RED" then "#e9002d"
    else if jsIncludes keyUpper "BLUE" then "#0057b8"
    else if jsIncludes keyUpper "YELLOW" then "#fcd116"
    else "#ffffff"

/-- `spawnBlock`: appends a block with the given position, zero velocity
and `isSleeping = false`.  The fresh uuid is passed in as `newId`. -/
def spawnBlock (s : WorldState) (newId colorKey : String) (randIdx : Fin 6)
    (x y z : ℚ) : WorldState :=
  { s with blocks :=
      s.blocks ++ [⟨newId, ⟨x, y, z⟩, mapColor colorKey randIdx, ⟨0, 0, 0⟩, false⟩] }

/-- The per-block body of `pushBlocks`.  The two uniform samples drawn by
`Math.random()` for the explode branch are passed in as `r`. -/
def pushBlock (direction : String) (intensity : ℚ) (r : ℚ × ℚ)
    (b : BlockData) : BlockData :=
  let force := intensity * (18 / 10)
  if jsIncludes direction "explode" then
    { b with isSleeping := false,
             velocity :=
               ⟨b.velocity.x + (r.1 - 1 / 2) * force * 2,
                b.velocity.y + force * (15 / 10),
                b.velocity.z + (r.2 - 1 / 2) * force * 2⟩ }
  else
    { b with isSleeping := false,
             velocity :=
               ⟨b.velocity.x,
                b.velocity.y + force * (3 / 10),
                b.velocity.z - force⟩ }

/-- `forEach` of `pushBlocks`, threading the per-block random samples. -/
def pushBlocksGo (direction : String) (intensity : ℚ) (rand : ℕ → ℚ × ℚ) :
    ℕ → List BlockData → List BlockData
  | _, [] => []
  | i, b :: rest =>
      pushBlock direction intensity (rand i) b ::
        pushBlocksGo direction intensity rand (i + 1) rest

/-- `pushBlocks`: adds a velocity delta to every block and wakes it. -/
def pushBlocks (s : WorldState) (direction : String) (intensity : ℚ)
    (rand : ℕ → ℚ × ℚ) : WorldState :=
  { s with blocks := pushBlocksGo direction intensity rand 0 s.blocks }

/-- `clearScene: () => setBlocks([])`. -/
def clearScene (s : WorldState) : WorldState :=
  { s with blocks := [] }

/-- `updateHandPosition`: `worldX = (x - 0.5) * 16`, `worldY = (1 - y) * 10`,
`z = 1`, `active` stored verbatim. -/
def updateHandPosition (s : WorldState) (x y : ℚ) (isActive : Bool) :
    WorldState :=
  { s with hand := ⟨⟨(x - 1 / 2) * 16, (1 - y) * 10, 1⟩, isActive⟩ }

/-- Phase 1 of the per-block loop: `if (!b.isSleeping) b.velocity[1] +=
GRAVITY * dt`. -/
def gravityPhase (dt : ℚ) (b : BlockData) : BlockData :=
  if b.isSleeping then b
  else { b with velocity := { b.velocity with y := b.velocity.y + GRAVITY * dt } }

/-- Phase 2: hand repulsion.  Inside the radius the source divides by
`dist = Math.sqrt(distSq)`; in this exact model `Rat.sqrt` stands for the
square root (division by a zero `dist` is settled separately on the
JavaScript-value model, where it produces NaN). -/
def repulsionPhase (hand : HandState) (dt : ℚ) (b : BlockData) : BlockData :=
  if hand.active then
    let dx := b.position.x - hand.pos.x
    let dy := b.position.y - hand.pos.y
    let dz := b.position.z - hand.pos.z
    let distSq := dx * dx + dy * dy + dz * dz
    if distSq < 16 then
      let dist := Rat.sqrt distSq
      let force := (4 - dist) * 20
      { b with
        velocity :=
          ⟨b.velocity.x + dx / dist * force * dt,
           b.velocity.y + dy / dist * force * dt,
           b.velocity.z + dz / dist * force * dt⟩,
        isSleeping := false }
    else b
  else b

/-- Phase 3: `position += velocity * dt` componentwise. -/
def integratePhase (dt : ℚ) (b : BlockData) : BlockData :=
  { b with position :=
      ⟨b.position.x + b.velocity.x * dt,
       b.position.y + b.velocity.y * dt,
       b.position.z + b.velocity.z * dt⟩ }

/-- Phase 4: floor collision.  Clamp, invert and damp the vertical
velocity, damp the horizontal velocities, and put the block to sleep when
the damped `y` and `x` velocities are both small (the source does not
examine the `z` component). -/
def floorPhase (b : BlockData) : BlockData :=
  if b.position.y < BLOCK_SIZE / 2 then
    let v1 := b.velocity.y * (-(3 / 10))
    let v0 := b.velocity.x * (85 / 100)
    let v2 := b.velocity.z * (85 / 100)
    { b with
      position := { b.position with y := BLOCK_SIZE / 2 },
      velocity := ⟨v0, v1, v2⟩,
      isSleeping := if |v1| < 1 / 10 ∧ |v0| < 1 / 10 then true else b.isSleeping }
  else b

/-- The four phases of the loop body of `useFrame`, in source order. -/
def stepBlock (hand : HandState) (dt : ℚ) (b : BlockData) : BlockData :=
  floorPhase (integratePhase dt (repulsionPhase hand dt (gravityPhase dt b)))

/-- One physics step: `dt = Math.min(delta, 0.1)`, then the per-block
loop. -/
def physicsStep (s : WorldState) (delta : ℚ) : WorldState :=
  let dt := min delta (1 / 10)
  { s with blocks := s.blocks.map (stepBlock s.hand dt) }

/-- The velocity delta contributed by the hand-repulsion phase alone. -/
def repulsionDelta (hand : HandState) (dt : ℚ) (b : BlockData) : Vec3 :=
  vsub (repulsionPhase hand dt b).velocity b.velocity

/-- An IEEE-754 double as JavaScript sees it, with exact finite values:
a finite rational, NaN, or a signed infinity.  Arithmetic on finite values
is exact; the special values follow the IEEE propagation rules. -/
inductive JVal where
  | num : ℚ → JVal
  | nan : JVal
  | pinf : JVal
  | ninf : JVal
deriving DecidableEq, Repr

namespace JVal

/-- IEEE addition. -/
def add : JVal → JVal → JVal
  | num a, num b => num (a + b)
  | nan, _ => nan
  | _, nan => nan
  | pinf, ninf => nan
  | ninf, pinf => nan
  | pinf, _ => pinf
  | _, pinf => pinf
  | ninf, _ => ninf
  | _, ninf => ninf

/-- IEEE negation. -/
def neg : JVal → JVal
  | num a => num (-a)
  | nan => nan
  | pinf => ninf
  | ninf => pinf

/-- IEEE subtraction. -/
def sub (a b : JVal) : JVal := add a (neg b)

/-- IEEE multiplication (`inf * 0 = NaN`). -/
def mul : JVal → JVal → JVal
  | num a, num b => num (a * b)
  | nan, _ => nan
  | _, nan => nan
  | pinf, num b => if 0 < b then pinf else if b < 0 then ninf else nan
  | num a, pinf => if 0 < a then pinf else if a < 0 then ninf else nan
  | ninf, num b => if 0 < b then ninf else if b < 0 then pinf else nan
  | num a, ninf => if 0 < a then ninf else if a < 0 then pinf else nan
  | pinf, pinf => pinf
  | pinf, ninf => ninf
  | ninf, pinf => ninf
  | ninf, ninf => pinf

/-- IEEE division (`0 / 0 = NaN`, `x / 0 = ±Infinity` for finite
`x ≠ 0`, `x / ±Infinity = 0` for finite `x`, `±Infinity / ±Infinity =
NaN`; the negative-zero divisor cases do not arise in this model). -/
def div : JVal → JVal → JVal
  | nan, _ => nan
  | _, nan => nan
  | num a, num b =>
      if b = 0 then (if a = 0 then nan else if 0 < a then pinf else ninf)
      else num (a / b)
  | num _, pinf => num 0
  | num _, ninf => num 0
  | pinf, num b => if 0 ≤ b then pinf else ninf
  | ninf, num b => if 0 ≤ b then ninf else pinf
  | pinf, _ => nan
  | ninf, _ => nan

/-- `Math.sqrt`: NaN on negatives and NaN, `Infinity` on `Infinity`;
exact on the perfect squares this development evaluates it at. -/
def sqt : JVal → JVal
  | nan => nan
  | pinf => pinf
  | ninf => nan
  | num a => if a < 0 then nan else num (Rat.sqrt a)

/-- JavaScript `<`: every comparison with NaN is false. -/
def lt : JVal → JVal → Bool
  | nan, _ => false
  | _, nan => false
  | num a, num b => a < b
  | num _, pinf => true
  | num _, ninf => false
  | pinf, _ => false
  | ninf, ninf => false
  | ninf, _ => true

/-- `Math.abs`. -/
def abv : JVal → JVal
  | num a => num |a|
  | nan => nan
  | pinf => pinf
  | ninf => pinf

/-- `Math.min`: NaN if either argument is NaN. -/
def jmin : JVal → JVal → JVal
  | nan, _ => nan
  | _, nan => nan
  | a, b => if lt a b then a else b

/-- A value is finite when it is a rational. -/
def isFinite : JVal → Bool
  | num _ => true
  | _ => false

end JVal

/-- 3-component vector of JavaScript values. -/
structure JVec3 where
  x : JVal
  y : JVal
  z : JVal
deriving DecidableEq, Repr

/-- A block in the JavaScript-value model. -/
structure JBlock where
  id : String
  position : JVec3
  color : String
  velocity : JVec3
  isSleeping : Bool
deriving DecidableEq, Repr

/-- Hand state in the JavaScript-value model. -/
structure JHandState where
  pos : JVec3
  active : Bool
deriving DecidableEq, Repr

/-- Scene state in the JavaScript-value model. -/
structure JWorldState where
  blocks : List JBlock
  hand : JHandState
deriving DecidableEq, Repr

/-- `spawnBlock` over JavaScript values: the coordinates are stored
verbatim, with no finiteness check anywhere in the source. -/
def jSpawnBlock (s : JWorldState) (newId colorKey : String) (randIdx : Fin 6)
    (x y z : JVal) : JWorldState :=
  { s with blocks :=
      s.blocks ++
        [⟨newId, ⟨x, y, z⟩, mapColor colorKey randIdx,
          ⟨JVal.num 0, JVal.num 0, JVal.num 0⟩, false⟩] }

/-- Per-block body of `pushBlocks` over JavaScript values. -/
def jPushBlock (direction : String) (intensity : JVal) (r : ℚ × ℚ)
    (b : JBlock) : JBlock :=
  let force := JVal.mul intensity (JVal.num (18 / 10))
  if jsIncludes direction "explode" then
    { b with isSleeping := false,
             velocity :=
               ⟨JVal.add b.velocity.x
                  (JVal.mul (JVal.mul (JVal.num (r.1 - 1 / 2)) force) (JVal.num 2)),
                JVal.add b.velocity.y (JVal.mul force (JVal.num (15 / 10))),
                JVal.add b.velocity.z
                  (JVal.mul (JVal.mul (JVal.num (r.2 - 1 / 2)) force) (JVal.num 2))⟩ }
  else
    { b with isSleeping := false,
             velocity :=
               ⟨b.velocity.x,
                JVal.add b.velocity.y (JVal.mul force (JVal.num (3 / 10))),
                JVal.sub b.velocity.z force⟩ }

/-- `forEach` of `pushBlocks` over JavaScript values. -/
def jPushBlocksGo (direction : String) (intensity : JVal) (rand : ℕ → ℚ × ℚ) :
    ℕ → List JBlock → List JBlock
  | _, [] => []
  | i, b :: rest =>
      jPushBlock direction intensity (rand i) b ::
        jPushBlocksGo direction intensity rand (i + 1) rest

/-- `pushBlocks` over JavaScript values. -/
def jPushBlocks (s : JWorldState) (direction : String) (intensity : JVal)
    (rand : ℕ → ℚ × ℚ) : JWorldState :=
  { s with blocks := jPushBlocksGo direction intensity rand 0 s.blocks }

/-- Gravity phase over JavaScript values. -/
def jGravityPhase (dt : JVal) (b : JBlock) : JBlock :=
  if b.isSleeping then b
  else { b with velocity :=
          { b.velocity with y := JVal.add b.velocity.y (JVal.mul (JVal.num GRAVITY) dt) } }

/-- Hand-repulsion phase over JavaScript values, exactly as the source
writes it: `dist = Math.sqrt(distSq)` and the three `(d_ / dist) * force *
dt` increments, with no guard against `dist == 0`. -/
def jRepulsionPhase (hand : JHandState) (dt : JVal) (b : JBlock) : JBlock :=
  if hand.active then
    let dx := JVal.sub b.position.x hand.pos.x
    let dy := JVal.sub b.position.y hand.pos.y
    let dz := JVal.sub b.position.z hand.pos.z
    let distSq := JVal.add (JVal.add (JVal.mul dx dx) (JVal.mul dy dy)) (JVal.mul dz dz)
    if JVal.lt distSq (JVal.num 16) then
      let dist := JVal.sqt distSq
      let force := JVal.mul (JVal.sub (JVal.num 4) dist) (JVal.num 20)
      { b with
        velocity :=
          ⟨JVal.add b.velocity.x (JVal.mul (JVal.mul (JVal.div dx dist) force) dt),
           JVal.add b.velocity.y (JVal.mul (JVal.mul (JVal.div dy dist) force) dt),
           JVal.add b.velocity.z (JVal.mul (JVal.mul (JVal.div dz dist) force) dt)⟩,
        isSleeping := false }
    else b
  else b

/-- Integration phase over JavaScript values. -/
def jIntegratePhase (dt : JVal) (b : JBlock) : JBlock :=
  { b with position :=
      ⟨JVal.add b.position.x (JVal.mul b.velocity.x dt),
       JVal.add b.position.y (JVal.mul b.velocity.y dt),
       JVal.add b.position.z (JVal.mul b.velocity.z dt)⟩ }

/-- Floor-collision phase over JavaScript values. -/
def jFloorPhase (b : JBlock) : JBlock :=
  if JVal.lt b.position.y (JVal.num (BLOCK_SIZE / 2)) then
    let v1 := JVal.mul b.velocity.y (JVal.num (-(3 / 10)))
    let v0 := JVal.mul b.velocity.x (JVal.num (85 / 100))
    let v2 := JVal.mul b.velocity.z (JVal.num (85 / 100))
    { b with
      position := { b.position with y := JVal.num (BLOCK_SIZE / 2) },
      velocity := ⟨v0, v1, v2⟩,
      isSleeping :=
        if JVal.lt (JVal.abv v1) (JVal.num (1 / 10)) &&
           JVal.lt (JVal.abv v0) (JVal.num (1 / 10)) then true else b.isSleeping }
  else b

/-- The four phases in source order, over JavaScript values. -/
def jStepBlock (hand : JHandState) (dt : JVal) (b : JBlock) : JBlock :=
  jFloorPhase (jIntegratePhase dt (jRepulsionPhase hand dt (jGravityPhase dt b)))

/-- One physics step over JavaScript values. -/
def jPhysicsStep (s : JWorldState) (delta : JVal) : JWorldState :=
  let dt := JVal.jmin delta (JVal.num (1 / 10))
  { s with blocks := s.blocks.map (jStepBlock s.hand dt) }

/-! ## Concrete states used by witnesses and counterexamples -/

/-- The initial scene: no blocks, hand parked at `(0, 100, 0)`, inactive
(`useRef(new THREE.Vector3(0, 100, 0))`, `useRef(false)`). -/
def W0 : WorldState := ⟨[], ⟨⟨0, 100, 0⟩, false⟩⟩

/-! ## C9: clear is idempotent, leaves the hand alone, spawn still works -/

/-- C9: `clearScene` empties the registry, a second `clearScene` leaves it
empty, the hand state is untouched, and a subsequent spawn produces a
registry holding exactly the one new block. -/
theorem clearScene_idempotent_spec (s : WorldState) (newId colorKey : String)
    (randIdx : Fin 6) (x y z : ℚ) :
    (clearScene s).blocks = [] ∧
    (clearScene (clearScene s)).blocks = [] ∧
    (clearScene s).hand = s.hand ∧
    (spawnBlock (clearScene s) newId colorKey randIdx x y z).blocks =
      [⟨newId, ⟨x, y, z⟩, mapColor colorKey randIdx, ⟨0, 0, 0⟩, false⟩] :=
  ⟨rfl, rfl, rfl, rfl⟩

/-! ## C4: the hand-position mapping -/

/-- C4 counterexample: at `normX = 0` the code stores
`worldX = (0 - 0.5) * 16 = -8`, not the `( 1 - normX - 0.5) * 16 = 8` the
claim states; the `1 - x` mirroring lives in the caller (`App.tsx`), not in
`updateHandPosition`. -/
theorem updateHandPosition_mirror_cex :
    (updateHandPosition W0 0 0 true).hand.pos.x ≠ (1 - 0 - 1 / 2) * 16 := by
  norm_num [updateHandPosition, W0]

/-- C4 (amended): `updateHandPosition(normX, normY, active)` stores the
hand world position `((normX - 0.5) * 16, (1 - normY) * 10, 1)` — no
horizontal mirroring inside the operation — with the active flag verbatim,
and leaves the registry alone. -/
theorem updateHandPosition_spec (s : WorldState) (x y : ℚ) (a : Bool) :
    (updateHandPosition s x y a).hand.pos = ⟨(x - 1 / 2) * 16, (1 - y) * 10, 1⟩ ∧
    (updateHandPosition s x y a).hand.active = a ∧
    (updateHandPosition s x y a).blocks = s.blocks :=
  ⟨rfl, rfl, rfl⟩

/-! ## C5: every push wakes every block -/

/-- Both branches of the push body store `isSleeping = false`. -/
theorem pushBlock_wakes (direction : String) (intensity : ℚ) (r : ℚ × ℚ)
    (b : BlockData) : (pushBlock direction intensity r b).isSleeping = false := by
  simp only [pushBlock]
  split <;> rfl

/-- Every block produced by the push loop is awake. -/
theorem pushBlocksGo_wakes (direction : String) (intensity : ℚ)
    (rand : ℕ → ℚ × ℚ) :
    ∀ (i : ℕ) (l : List BlockData) (b : BlockData),
      b ∈ pushBlocksGo direction intensity rand i l → b.isSleeping = false := by
  intro i l
  induction l generalizing i with
  | nil => intro b hb; simp [pushBlocksGo] at hb
  | cons hd tl ih =>
      intro b hb
      rcases List.mem_cons.1 hb with h | h
      · subst h; exact pushBlock_wakes ..
      · exact ih _ b h

/-- C5: immediately after `pushBlocks` — any direction string, any
intensity, any random draw — every block in the registry has
`isSleeping = false`. -/
theorem pushBlocks_wakes_all (s : WorldState) (direction : String)
    (intensity : ℚ) (rand : ℕ → ℚ × ℚ) (b : BlockData)
    (hb : b ∈ (pushBlocks s direction intensity rand).blocks) :
    b.isSleeping = false :=
  pushBlocksGo_wakes direction intensity rand 0 s.blocks b hb

/-- Registry with two sleeping blocks, for the C5 witness. -/
def sW5 : WorldState :=
  ⟨[⟨"a", ⟨0, 1 / 2, 0⟩, "#ffffff", ⟨0, 0, 0⟩, true⟩,
    ⟨"b", ⟨2, 1 / 2, 0⟩, "#0057b8", ⟨0, 0, 0⟩, true⟩],
   ⟨⟨0, 100, 0⟩, false⟩⟩

/-- C5 witness: the first block of the pushed two-sleeping-block registry
is awake. -/
theorem pushBlocks_wakes_all_witness :
    (⟨"a", ⟨0, 1 / 2, 0⟩, "#ffffff", ⟨0, 27 / 2, 0⟩, false⟩ : BlockData).isSleeping
      = false :=
  pushBlocks_wakes_all sW5 "explode" 5 (fun _ => (1 / 2, 1 / 2)) _
    (by norm_num [pushBlocks, pushBlocksGo, pushBlock, sW5,
      show jsIncludes "explode" "explode" = true from by decide])

/-! ## C10: every non-explode direction gets the same forward push -/

/-- On a direction without `'explode'` the push loop is a plain map: each
block gets exactly `velocity.z -= intensity * 1.8` and
`velocity.y += intensity * 1.8 * 0.3`, independent of the loop index and of
the random stream. -/
theorem pushBlocksGo_directional (direction : String) (intensity : ℚ)
    (rand : ℕ → ℚ × ℚ) (h : jsIncludes direction "explode" = false) :
    ∀ (i : ℕ) (l : List BlockData),
      pushBlocksGo direction intensity rand i l =
        l.map fun b =>
          { b with isSleeping := false,
                   velocity :=
                     ⟨b.velocity.x,
                      b.velocity.y + intensity * (18 / 10) * (3 / 10),
                      b.velocity.z - intensity * (18 / 10)⟩ } := by
  intro i l
  induction l generalizing i with
  | nil => rfl
  | cons hd tl ih =>
      simp only [pushBlocksGo, List.map_cons, ih]
      simp only [pushBlock, h]
      rfl

/-- C10: for every direction string not containing `'explode'` (so also
for the advertised `'backward'`, `'left'`, `'right'`), `pushBlocks` applies
one identical deterministic velocity increment to every block:
`velocity.z -= intensity * 1.8`, `velocity.y += intensity * 1.8 * 0.3`; the
result does not depend on the random stream or on which non-explode
direction was named. -/
theorem pushBlocks_directional_uniform (s : WorldState) (direction : String)
    (intensity : ℚ) (rand : ℕ → ℚ × ℚ)
    (h : jsIncludes direction "explode" = false) :
    (pushBlocks s direction intensity rand).blocks =
      s.blocks.map fun b =>
        { b with isSleeping := false,
                 velocity :=
                   ⟨b.velocity.x,
                    b.velocity.y + intensity * (18 / 10) * (3 / 10),
                    b.velocity.z - intensity * (18 / 10)⟩ } :=
  pushBlocksGo_directional direction intensity rand h 0 s.blocks

/-- One-block registry for the C10 witness. -/
def sW10 : WorldState :=
  ⟨[⟨"a", ⟨0, 5, 0⟩, "#ffffff", ⟨1, 2, 3⟩, true⟩], ⟨⟨0, 100, 0⟩, false⟩⟩

/-- C10 witness: a `'backward'` push is the deterministic forward-push
increment. -/
theorem pushBlocks_directional_uniform_witness :
    jsIncludes "backward" "explode" = false ∧
    (pushBlocks sW10 "backward" 2 fun _ => (1, 0)).blocks =
      [⟨"a", ⟨0, 5, 0⟩, "#ffffff", ⟨1, 77 / 25, -(3 / 5)⟩, false⟩] := by
  refine ⟨by decide, ?_⟩
  rw [pushBlocks_directional_uniform sW10 "backward" 2 (fun _ => (1, 0)) (by decide)]
  norm_num [sW10]

/-! ## C1: the floor clamp restores the invariant every step -/

/-- The floor phase never leaves a block below `halfSize`, whatever the
earlier phases produced. -/
theorem floorPhase_clamps (b : BlockData) :
    BLOCK_SIZE / 2 ≤ (floorPhase b).position.y := by
  unfold floorPhase
  split
  · rfl
  · next h => exact not_lt.mp h

/-- C1: after a physics step with any non-negative time delta, every block
in the registry satisfies `position.y >= halfSize`: the step-4 clamp
restores the invariant regardless of what gravity, hand repulsion and
integration did earlier in the step. -/
theorem step_floor_invariant (s : WorldState) (delta : ℚ) (_hdelta : 0 ≤ delta)
    (b : BlockData) (hb : b ∈ (physicsStep s delta).blocks) :
    BLOCK_SIZE / 2 ≤ b.position.y := by
  simp only [physicsStep] at hb
  rcases List.mem_map.1 hb with ⟨a, _, rfl⟩
  exact floorPhase_clamps _

/-- One falling block for the C1 witness. -/
def sW1 : WorldState :=
  ⟨[⟨"a", ⟨0, 5, 0⟩, "#ffffff", ⟨0, 0, 0⟩, false⟩], ⟨⟨0, 100, 0⟩, false⟩⟩

/-- The block of `sW1` after one step with `delta = 0.1`. -/
def bW1 : BlockData := ⟨"a", ⟨0, 2451 / 500, 0⟩, "#ffffff", ⟨0, -(49 / 50), 0⟩, false⟩

/-- C1 witness: the stepped block of the one-block registry is above the
floor. -/
theorem step_floor_invariant_witness :
    (0 : ℚ) ≤ 1 / 10 ∧ BLOCK_SIZE / 2 ≤ bW1.position.y :=
  ⟨by norm_num,
   step_floor_invariant sW1 (1 / 10) (by norm_num) bW1
     (by norm_num [physicsStep, stepBlock, floorPhase, integratePhase,
       repulsionPhase, gravityPhase, sW1, bW1, BLOCK_SIZE, GRAVITY, min_def])⟩

/-! ## C3: what sleep actually freezes -/

/-- Sleeping block resting on the floor with a small but non-zero
horizontal velocity: the claim's hypotheses hold for it. -/
def bC3 : BlockData := ⟨"a", ⟨0, 1 / 2, 0⟩, "#ffffff", ⟨1 / 20, 0, 0⟩, true⟩

/-- Scene for the C3 counterexample: one such block, hand inactive. -/
def sC3 : WorldState := ⟨[bC3], ⟨⟨0, 100, 0⟩, false⟩⟩

/-- C3 counterexample: a block resting on the floor (`y = halfSize`),
sleeping, with speed `1/20` below the `0.1` sleep threshold, no push and
an inactive hand, still moves during the next step — sleep suppresses only
gravity, while integration keeps adding `velocity * dt` to the
position. -/
theorem sleeping_block_drifts_cex :
    bC3.isSleeping = true ∧
    bC3.position.y = BLOCK_SIZE / 2 ∧
    normSq bC3.velocity < (1 / 10) * (1 / 10) ∧
    sC3.hand.active = false ∧
    ((physicsStep sC3 (1 / 10)).blocks.map fun b => b.position) ≠ [bC3.position] := by
  refine ⟨rfl, by norm_num [bC3, BLOCK_SIZE], by norm_num [bC3, normSq], rfl, ?_⟩
  norm_num [physicsStep, stepBlock, floorPhase, integratePhase, repulsionPhase,
    gravityPhase, sC3, bC3, BLOCK_SIZE, GRAVITY, min_def]

/-- A sleeping block with exactly zero velocity, resting on the floor, is
a fixed point of the per-block step as long as the hand is inactive or
outside the interaction radius. -/
theorem stepBlock_sleeping_fixed (hand : HandState) (dt : ℚ) (b : BlockData)
    (hs : b.isSleeping = true) (hv : b.velocity = ⟨0, 0, 0⟩)
    (hy : b.position.y = BLOCK_SIZE / 2)
    (hfar : hand.active = false ∨ 16 ≤ normSq (vsub b.position hand.pos)) :
    stepBlock hand dt b = b := by
  have hgrav : gravityPhase dt b = b := by simp [gravityPhase, hs]
  have hrep : repulsionPhase hand dt b = b := by
    rcases hfar with h | h
    · simp [repulsionPhase, h]
    · have h2 : ¬ ((b.position.x - hand.pos.x) * (b.position.x - hand.pos.x) +
          (b.position.y - hand.pos.y) * (b.position.y - hand.pos.y) +
          (b.position.z - hand.pos.z) * (b.position.z - hand.pos.z) < 16) :=
        not_lt.mpr h
      simp [repulsionPhase, h2]
  have hint : integratePhase dt b = b := by
    obtain ⟨id, ⟨px, py, pz⟩, color, v, slp⟩ := b
    obtain rfl : v = ⟨0, 0, 0⟩ := hv
    simp [integratePhase]
  have hfloor : floorPhase b = b := by
    unfold floorPhase
    rw [if_neg (by rw [hy]; exact lt_irrefl _)]
  rw [stepBlock, hgrav, hrep, hint, hfloor]

/-- C3 (amended): a block resting on the floor with `isSleeping = true`
and *zero velocity* keeps exactly the same state across every later
physics step — each with its own hand state and time delta — as long as no
push occurs and the hand is inactive or outside the interaction radius.
(Merely having speed below the sleep threshold is not enough: the
counterexample block above drifts.) -/
theorem sleeping_block_fixed_under_steps (b : BlockData)
    (steps : List (HandState × ℚ))
    (hs : b.isSleeping = true) (hv : b.velocity = ⟨0, 0, 0⟩)
    (hy : b.position.y = BLOCK_SIZE / 2)
    (hfar : ∀ p ∈ steps,
      (p : HandState × ℚ).1.active = false ∨
        16 ≤ normSq (vsub b.position p.1.pos)) :
    steps.foldl (fun cur p => stepBlock p.1 (min p.2 (1 / 10)) cur) b = b := by
  induction steps with
  | nil => rfl
  | cons hd tl ih =>
      have h1 : stepBlock hd.1 (min hd.2 (1 / 10)) b = b :=
        stepBlock_sleeping_fixed _ _ _ hs hv hy (hfar hd (List.mem_cons_self ..))
      simp only [List.foldl_cons, h1]
      exact ih fun p hp => hfar p (List.mem_cons_of_mem _ hp)

/-- Resting zero-velocity sleeping block for the C3 witness. -/
def bW3 : BlockData := ⟨"a", ⟨0, 1 / 2, 0⟩, "#ffffff", ⟨0, 0, 0⟩, true⟩

/-- Two frames for the C3 witness: an inactive hand, then an active hand
nine units away. -/
def stepsW3 : List (HandState × ℚ) :=
  [(⟨⟨0, 100, 0⟩, false⟩, 1 / 10), (⟨⟨9, 1 / 2, 0⟩, true⟩, 1 / 50)]

/-- C3 witness: the resting block survives both frames unchanged. -/
theorem sleeping_block_fixed_under_steps_witness :
    stepsW3.foldl (fun cur p => stepBlock p.1 (min p.2 (1 / 10)) cur) bW3 = bW3 :=
  sleeping_block_fixed_under_steps bW3 stepsW3 rfl rfl
    (by norm_num [bW3, BLOCK_SIZE])
    (by
      intro p hp
      rcases List.mem_cons.1 hp with h | h
      · subst h; exact Or.inl rfl
      · rcases List.mem_cons.1 h with h2 | h2
        · subst h2
          exact Or.inr (by norm_num [bW3, normSq, vsub])
        · simp [stepsW3] at h2)

/-! ## C8: the sleep test at the floor -/

/-- Block sliding fast in `z` while touching down gently, for the C8
counterexample. -/
def sC8 : WorldState :=
  ⟨[⟨"a", ⟨0, 2 / 5, 0⟩, "#ffffff", ⟨0, 0, 8⟩, false⟩], ⟨⟨0, 100, 0⟩, false⟩⟩

/-- C8 counterexample: after the floor phase this block is marked
`isSleeping = true` even though its damped `z` velocity is `6.8`, far above
the `0.1` threshold — the sleep test reads only the `y` and `x`
components. -/
theorem floor_sleep_ignores_z_cex :
    ((physicsStep sC8 (1 / 100)).blocks.map fun b => (b.isSleeping, b.velocity.z)) =
      [(true, 34 / 5)] ∧
    (1 / 10 : ℚ) ≤ |(34 / 5 : ℚ)| := by
  constructor
  · norm_num [physicsStep, stepBlock, floorPhase, integratePhase, repulsionPhase,
      gravityPhase, sC8, BLOCK_SIZE, GRAVITY, min_def, abs_lt]
  · norm_num [le_abs]

/-- C8 (amended): in the floor-collision phase a previously awake block is
marked sleeping exactly when, after the damping, `|velocity.y| < 0.1` and
`|velocity.x| < 0.1`; the `z` component is not examined at all. -/
theorem floorPhase_sleep_condition (b : BlockData)
    (hy : b.position.y < BLOCK_SIZE / 2) (hw : b.isSleeping = false) :
    ((floorPhase b).isSleeping = true ↔
      |b.velocity.y * (-(3 / 10))| < 1 / 10 ∧ |b.velocity.x * (85 / 100)| < 1 / 10) := by
  unfold floorPhase
  rw [if_pos hy]
  show (if |b.velocity.y * (-(3 / 10))| < 1 / 10 ∧ |b.velocity.x * (85 / 100)| < 1 / 10
      then true else b.isSleeping) = true ↔ _
  split
  next h =>
    simp at h
    simp [h]
  next h =>
    simp at h
    rw [hw]
    simpa using h

/-- Touching-down block for the C8 witness. -/
def bW8 : BlockData := ⟨"a", ⟨0, 0, 0⟩, "#ffffff", ⟨0, -(1 / 5), 0⟩, false⟩

/-- C8 witness: the gently landing block is put to sleep, via the amended
condition. -/
theorem floorPhase_sleep_condition_witness :
    (floorPhase bW8).isSleeping = true :=
  (floorPhase_sleep_condition bW8 (by norm_num [bW8, BLOCK_SIZE]) rfl).mpr
    (by norm_num [bW8, abs_lt])

/-! ## C2: division by zero at the hand centre -/

/-- `Rat.sqrt 0 = 0`. -/
theorem ratSqrtZero : Rat.sqrt (0 : ℚ) = 0 := by
  simp [Rat.sqrt]

/-- Scene with the active hand exactly at a block's centre (reachable: the
block spawned at `(0, 5, 1)`, the hand mapped from `normX = normY = 0.5`). -/
def sC2 : JWorldState :=
  ⟨[⟨"a", ⟨JVal.num 0, JVal.num 5, JVal.num 1⟩, "#ffffff",
     ⟨JVal.num 0, JVal.num 0, JVal.num 0⟩, false⟩],
   ⟨⟨JVal.num 0, JVal.num 5, JVal.num 1⟩, true⟩⟩

/-- C2: when the active hand coincides with a block centre, `distSq = 0`
passes the radius test, `dist = 0`, and the source computes `0 / 0 = NaN`:
after the step every velocity component of the block is NaN, not finite —
the claimed guard does not exist in the code. -/
theorem hand_at_block_center_nan :
    ((jPhysicsStep sC2 (JVal.num (1 / 10))).blocks.map fun b =>
        (b.velocity.x, b.velocity.y, b.velocity.z)) =
      [(JVal.nan, JVal.nan, JVal.nan)] ∧
    JVal.nan.isFinite = false := by
  constructor
  · norm_num [jPhysicsStep, jStepBlock, jFloorPhase, jIntegratePhase, jRepulsionPhase,
      jGravityPhase, sC2, BLOCK_SIZE, GRAVITY, JVal.jmin, JVal.lt, JVal.add, JVal.mul,
      JVal.sub, JVal.neg, JVal.div, JVal.sqt, JVal.abv, ratSqrtZero]
  · rfl

/-! ## C7: spawn and push do not validate finiteness -/

/-- `mapColor` resolves `"red"`. -/
theorem mapColorRed : mapColor "red" 0 = "#e9002d" := by decide

/-- The empty JavaScript-value scene. -/
def jW0 : JWorldState := ⟨[], ⟨⟨JVal.num 0, JVal.num 100, JVal.num 0⟩, false⟩⟩

/-- C7 counterexample: spawning with `x = NaN` changes the registry and
inserts a block whose `position.x` is NaN — nothing is rejected. -/
theorem spawn_nonfinite_inserted_cex :
    (jSpawnBlock jW0 "b1" "red" 0 JVal.nan (JVal.num 5) (JVal.num 0)).blocks =
      [⟨"b1", ⟨JVal.nan, JVal.num 5, JVal.num 0⟩, "#e9002d",
        ⟨JVal.num 0, JVal.num 0, JVal.num 0⟩, false⟩] ∧
    JVal.nan.isFinite = false := by
  refine ⟨?_, rfl⟩
  simp [jSpawnBlock, jW0, mapColorRed]

/-- C7 (amended): neither `spawnBlock` nor `pushBlocks` performs any
finiteness (or range) validation.  Spawn appends a block carrying the
given coordinates verbatim — NaN and Infinity included — and a `'forward'`
push applies its velocity increments verbatim for every intensity,
finite or not. -/
theorem spawn_push_no_validation :
    (∀ (s : JWorldState) (newId colorKey : String) (randIdx : Fin 6)
        (x y z : JVal),
      (jSpawnBlock s newId colorKey randIdx x y z).blocks =
        s.blocks ++ [⟨newId, ⟨x, y, z⟩, mapColor colorKey randIdx,
          ⟨JVal.num 0, JVal.num 0, JVal.num 0⟩, false⟩]) ∧
    (∀ (s : JWorldState) (intensity : JVal) (rand : ℕ → ℚ × ℚ),
      (jPushBlocks s "forward" intensity rand).blocks =
        s.blocks.map fun b =>
          { b with isSleeping := false,
                   velocity :=
                     ⟨b.velocity.x,
                      JVal.add b.velocity.y
                        (JVal.mul (JVal.mul intensity (JVal.num (18 / 10)))
                          (JVal.num (3 / 10))),
                      JVal.sub b.velocity.z
                        (JVal.mul intensity (JVal.num (18 / 10)))⟩ }) := by
  constructor
  · intro s newId colorKey randIdx x y z
    rfl
  · intro s intensity rand
    show jPushBlocksGo "forward" intensity rand 0 s.blocks = _
    suffices h : ∀ (i : ℕ) (l : List JBlock),
        jPushBlocksGo "forward" intensity rand i l =
          l.map fun b =>
            { b with isSleeping := false,
                     velocity :=
                       ⟨b.velocity.x,
                        JVal.add b.velocity.y
                          (JVal.mul (JVal.mul intensity (JVal.num (18 / 10)))
                            (JVal.num (3 / 10))),
                        JVal.sub b.velocity.z
                          (JVal.mul intensity (JVal.num (18 / 10)))⟩ } from
      h 0 s.blocks
    intro i l
    induction l generalizing i with
    | nil => rfl
    | cons hd tl ih =>
        simp only [jPushBlocksGo, List.map_cons, ih]
        rfl

/-! ## C6: repulsion falloff -/

/-- Exact square root of a square of a nonnegative rational. -/
theorem sqrt_mul_self_rat (d : ℚ) (hd : 0 ≤ d) : Rat.sqrt (d * d) = d := by
  rw [Rat.sqrt_eq, abs_of_nonneg hd]

/-- Closed form of the repulsion delta inside the radius: a block whose
distance from the active hand is exactly `d ∈ (0, 4)` receives a velocity
delta of squared magnitude `((4 - d) * 20 * dt)²`. -/
theorem repulsionDelta_normSq (hand : HandState) (dt : ℚ) (b : BlockData) (d : ℚ)
    (ha : hand.active = true) (h0 : 0 < d) (h4 : d < 4)
    (hd : normSq (vsub b.position hand.pos) = d * d) :
    normSq (repulsionDelta hand dt b) = ((4 - d) * 20 * dt) ^ 2 := by
  have hsq : (b.position.x - hand.pos.x) * (b.position.x - hand.pos.x) +
      (b.position.y - hand.pos.y) * (b.position.y - hand.pos.y) +
      (b.position.z - hand.pos.z) * (b.position.z - hand.pos.z) = d * d := hd
  have hlt : (b.position.x - hand.pos.x) * (b.position.x - hand.pos.x) +
      (b.position.y - hand.pos.y) * (b.position.y - hand.pos.y) +
      (b.position.z - hand.pos.z) * (b.position.z - hand.pos.z) < 16 := by
    rw [hsq]; nlinarith
  have hdne : d ≠ 0 := ne_of_gt h0
  simp only [repulsionDelta, repulsionPhase, ha, if_true, if_pos hlt]
  rw [hsq, sqrt_mul_self_rat d h0.le]
  simp only [vsub, normSq]
  field_simp
  linear_combination ((4 - d) * 20 * dt) ^ 2 * hsq

/-- Outside the radius (distance at least 4) the repulsion phase leaves
the velocity untouched. -/
theorem repulsionDelta_far (hand : HandState) (dt : ℚ) (b : BlockData) (d : ℚ)
    (h4 : 4 ≤ d) (hd : normSq (vsub b.position hand.pos) = d * d) :
    repulsionDelta hand dt b = ⟨0, 0, 0⟩ := by
  have hsq : (b.position.x - hand.pos.x) * (b.position.x - hand.pos.x) +
      (b.position.y - hand.pos.y) * (b.position.y - hand.pos.y) +
      (b.position.z - hand.pos.z) * (b.position.z - hand.pos.z) = d * d := hd
  have hnlt : ¬ ((b.position.x - hand.pos.x) * (b.position.x - hand.pos.x) +
      (b.position.y - hand.pos.y) * (b.position.y - hand.pos.y) +
      (b.position.z - hand.pos.z) * (b.position.z - hand.pos.z) < 16) := by
    rw [hsq]; nlinarith
  have hrep : repulsionPhase hand dt b = b := by
    simp [repulsionPhase, hnlt]
  rw [repulsionDelta, hrep]
  simp [vsub]

/-- C6: with the hand active and a fixed positive `dt`, the magnitude of
the repulsion velocity delta is strictly decreasing in the block's
distance `d` on `0 < d < 4` (compared here through squared magnitudes of
the nonnegative closed form `(4 - d) * 20 * dt`), and the delta is exactly
zero for every distance `d ≥ 4` (radius 4, radius² = 16). -/
theorem repulsion_falloff (hand : HandState) (dt d1 d2 d3 : ℚ)
    (b1 b2 b3 : BlockData)
    (ha : hand.active = true) (hdt : 0 < dt)
    (h01 : 0 < d1) (h12 : d1 < d2) (h24 : d2 < 4)
    (hb1 : normSq (vsub b1.position hand.pos) = d1 * d1)
    (hb2 : normSq (vsub b2.position hand.pos) = d2 * d2)
    (h43 : 4 ≤ d3)
    (hb3 : normSq (vsub b3.position hand.pos) = d3 * d3) :
    normSq (repulsionDelta hand dt b1) = ((4 - d1) * 20 * dt) ^ 2 ∧
    normSq (repulsionDelta hand dt b2) = ((4 - d2) * 20 * dt) ^ 2 ∧
    normSq (repulsionDelta hand dt b2) < normSq (repulsionDelta hand dt b1) ∧
    repulsionDelta hand dt b3 = ⟨0, 0, 0⟩ := by
  have e1 := repulsionDelta_normSq hand dt b1 d1 ha h01 (lt_trans h12 h24) hb1
  have e2 := repulsionDelta_normSq hand dt b2 d2 ha (lt_trans h01 h12) h24 hb2
  refine ⟨e1, e2, ?_, repulsionDelta_far hand dt b3 d3 h43 hb3⟩
  rw [e1, e2]
  have hB : (0 : ℚ) < (4 - d2) * 20 * dt :=
    mul_pos (mul_pos (by linarith) (by norm_num)) hdt
  have hAB : (4 - d2) * 20 * dt < (4 - d1) * 20 * dt :=
    mul_lt_mul_of_pos_right (by linarith) hdt
  exact pow_lt_pow_left₀ hAB hB.le (by norm_num)

/-- Active hand at the origin, for the C6 witness. -/
def handW6 : HandState := ⟨⟨0, 0, 0⟩, true⟩

/-- Block at distance 1 from the hand. -/
def b1W6 : BlockData := ⟨"a", ⟨1, 0, 0⟩, "#ffffff", ⟨0, 0, 0⟩, false⟩

/-- Block at distance 2 from the hand. -/
def b2W6 : BlockData := ⟨"b", ⟨0, 2, 0⟩, "#ffffff", ⟨0, 0, 0⟩, false⟩

/-- Block at distance 5 from the hand. -/
def b3W6 : BlockData := ⟨"c", ⟨0, 0, 5⟩, "#ffffff", ⟨0, 0, 0⟩, false⟩

/-- C6 witness: at distances 1, 2 and 5 with `dt = 0.1` the closed forms,
the strict falloff and the outside-radius zero delta all hold. -/
theorem repulsion_falloff_witness :
    (0 : ℚ) < 1 / 10 ∧
    (normSq (repulsionDelta handW6 (1 / 10) b1W6) = ((4 - 1) * 20 * (1 / 10)) ^ 2 ∧
     normSq (repulsionDelta handW6 (1 / 10) b2W6) = ((4 - 2) * 20 * (1 / 10)) ^ 2 ∧
     normSq (repulsionDelta handW6 (1 / 10) b2W6) <
       normSq (repulsionDelta handW6 (1 / 10) b1W6) ∧
     repulsionDelta handW6 (1 / 10) b3W6 = ⟨0, 0, 0⟩) :=
  ⟨by norm_num,
   repulsion_falloff handW6 (1 / 10) 1 2 5 b1W6 b2W6 b3W6 rfl (by norm_num)
     (by norm_num) (by norm_num) (by norm_num)
     (by norm_num [normSq, vsub, handW6, b1W6])
     (by norm_num [normSq, vsub, handW6, b2W6])
     (by norm_num)
     (by norm_num [normSq, vsub, handW6, b3W6])⟩
